import Mathlib

/-!
Shallow embedding of the task/conversation subsystem of a FastAPI chat
backend: the models (`app/models/task.py`, `app/models/conversation.py`),
the repositories (`app/repositories/base.py`, `task.py`, `conversation.py`)
and the services (`app/services/task.py`, `conversation.py`, `chat.py`),
together with theorems checking the specification's claims about them.

Conventions of the embedding:
* MongoDB ObjectIds are `Nat`; timestamps (`datetime.now()` and
  `datetime.utcnow()`) are `Nat`, passed explicitly as a `now` argument.
* Python strings that the code slices (`msg[:50]`) are `List Char`, so that
  slicing is `List.take`; enumeration-like strings (statuses, roles,
  priorities) stay `String`.
* Free-form JSON objects (`metadata`, `agent_state`) are association lists
  of string keys and opaque string values; Python dict truthiness is
  non-emptiness.
* A Mongo collection is a `List` of documents: `find_one` is `List.find?`,
  `update_one` and `find_one_and_update` rewrite the first matching
  document, `delete_one` removes the first matching document, `delete_many`
  filters.
* `async` plays no role: each operation is a pure function from the store
  (and `now`) to the new store and the operation's return value.
-/

namespace AgentTemplate

/-- A free-form JSON object (a `metadata` or `agent_state` dict). -/
abbrev JsonObj := List (String × String)

/-- A Python `str` that the code slices: a sequence of characters. -/
abbrev Str := List Char

/-- `ChatMessage` (app/models/task.py): one message inside a task. -/
structure ChatMessage where
  id : Nat
  role : String
  content : Str
  metadata : JsonObj
  created_at : Nat
  deriving Repr, DecidableEq

/-- `Task` (app/models/task.py). `messages` defaults to the empty list,
`agent_state` to the empty dict. -/
structure Task where
  id : Nat
  conversation_id : Nat
  user_id : Nat
  user_message : Str
  messages : List ChatMessage
  status : String
  priority : String
  category : Option String
  tags : List String
  completion_percentage : Nat
  estimated_duration : Option Nat
  actual_duration : Option Nat
  metadata : JsonObj
  agent_type : Option String
  agent_state : JsonObj
  started_at : Option Nat
  completed_at : Option Nat
  error_message : Option String
  created_at : Nat
  updated_at : Nat
  deriving Repr, DecidableEq

/-- `Conversation` (app/models/conversation.py). -/
structure Conversation where
  id : Nat
  user_id : Nat
  title : Str
  description : Option String
  task_ids : List Nat
  is_active : Bool
  metadata : JsonObj
  created_at : Nat
  updated_at : Nat
  deriving Repr, DecidableEq

/-- The MongoDB database: the `tasks` and `conversations` collections plus
the generator of fresh ObjectIds. -/
structure Store where
  tasks : List Task
  conversations : List Conversation
  nextId : Nat
  deriving Repr, DecidableEq

/-- Well-formed store: document ids are unique within each collection
(MongoDB enforces uniqueness of `_id` at the store boundary). -/
def Store.WF (s : Store) : Prop :=
  (s.tasks.map Task.id).Nodup ∧ (s.conversations.map Conversation.id).Nodup

instance (s : Store) : Decidable s.WF := by
  unfold Store.WF; infer_instance

/-- Generated ids are fresh: every stored id is below the generator counter. -/
def Store.Fresh (s : Store) : Prop :=
  (∀ t ∈ s.tasks, t.id < s.nextId) ∧ (∀ c ∈ s.conversations, c.id < s.nextId)

instance (s : Store) : Decidable s.Fresh := by
  unfold Store.Fresh; infer_instance

/-! ### Collection primitives (app/repositories/base.py and pymongo) -/

/-- `find_one_and_update` with `ReturnDocument.AFTER` on the tasks
collection (`BaseRepository.update`): rewrite the first document carrying
the id and return the rewritten document. -/
def update_first_task (ts : List Task) (task_id : Nat) (f : Task → Task) :
    List Task × Option Task :=
  match ts with
  | [] => ([], none)
  | t :: rest =>
      if t.id == task_id then (f t :: rest, some (f t))
      else
        let r := update_first_task rest task_id f
        (t :: r.1, r.2)

/-- `update_one` / `find_one_and_update` on the conversations collection. -/
def update_first_conversation (cs : List Conversation) (conversation_id : Nat)
    (f : Conversation → Conversation) : List Conversation × Option Conversation :=
  match cs with
  | [] => ([], none)
  | c :: rest =>
      if c.id == conversation_id then (f c :: rest, some (f c))
      else
        let r := update_first_conversation rest conversation_id f
        (c :: r.1, r.2)

/-- `delete_one` on the tasks collection: remove the first document matching
the predicate; the flag is `deleted_count > 0`. -/
def delete_one_task (ts : List Task) (p : Task → Bool) : List Task × Bool :=
  match ts with
  | [] => ([], false)
  | t :: rest =>
      if p t then (rest, true)
      else
        let r := delete_one_task rest p
        (t :: r.1, r.2)

/-- `delete_one` on the conversations collection. -/
def delete_one_conversation (cs : List Conversation) (p : Conversation → Bool) :
    List Conversation × Bool :=
  match cs with
  | [] => ([], false)
  | c :: rest =>
      if p c then (rest, true)
      else
        let r := delete_one_conversation rest p
        (c :: r.1, r.2)

/-! ### Repository operations -/

/-- `TaskRepository.get_user_task`: `find_one` on `_id` and `user_id`. -/
def get_user_task (s : Store) (task_id user_id : Nat) : Option Task :=
  s.tasks.find? (fun t => t.id == task_id && t.user_id == user_id)

/-- `BaseRepository.get_by_id` on the tasks collection. -/
def get_task_by_id (s : Store) (task_id : Nat) : Option Task :=
  s.tasks.find? (fun t => t.id == task_id)

/-- `ConversationRepository.get_user_conversation`. -/
def get_user_conversation (s : Store) (conversation_id user_id : Nat) :
    Option Conversation :=
  s.conversations.find? (fun c => c.id == conversation_id && c.user_id == user_id)

/-- `BaseRepository.get_by_id` on the conversations collection. -/
def get_conversation_by_id (s : Store) (conversation_id : Nat) : Option Conversation :=
  s.conversations.find? (fun c => c.id == conversation_id)

/-- MongoDB `$addToSet`: append the value unless it is already present. -/
def addToSet (l : List Nat) (x : Nat) : List Nat :=
  if x ∈ l then l else l ++ [x]

/-- `ConversationRepository.add_task_to_conversation`: `$addToSet` the task
id into `task_ids` and `$set` a fresh `updated_at` on the conversation with
the given id. -/
def add_task_to_conversation (s : Store) (conversation_id task_id now : Nat) :
    Store × Bool :=
  let r := update_first_conversation s.conversations conversation_id
    (fun c => { c with task_ids := addToSet c.task_ids task_id, updated_at := now })
  ({ s with conversations := r.1 }, r.2.isSome)

/-- `ConversationRepository.remove_task_from_conversation`: `$pull` the task
id out of `task_ids` and `$set` a fresh `updated_at`. -/
def remove_task_from_conversation (s : Store) (conversation_id task_id now : Nat) :
    Store × Bool :=
  let r := update_first_conversation s.conversations conversation_id
    (fun c =>
      { c with
        task_ids := c.task_ids.filter (fun x => x != task_id)
        updated_at := now })
  ({ s with conversations := r.1 }, r.2.isSome)

/-- `TaskRepository.delete_user_task`: `delete_one` on `_id` and `user_id`. -/
def delete_user_task (s : Store) (task_id user_id : Nat) : Store × Bool :=
  let r := delete_one_task s.tasks (fun t => t.id == task_id && t.user_id == user_id)
  ({ s with tasks := r.1 }, r.2)

/-- `TaskRepository.delete_conversation_tasks`: `delete_many` on
`conversation_id`. -/
def delete_conversation_tasks (s : Store) (conversation_id : Nat) : Store :=
  { s with tasks := s.tasks.filter (fun t => !(t.conversation_id == conversation_id)) }

/-- `ConversationRepository.delete_user_conversation`: `delete_one` on `_id`
and `user_id`. -/
def delete_user_conversation (s : Store) (conversation_id user_id : Nat) :
    Store × Bool :=
  let r := delete_one_conversation s.conversations
    (fun c => c.id == conversation_id && c.user_id == user_id)
  ({ s with conversations := r.1 }, r.2)

/-! ### The resumable-state lookup (app/repositories/task.py lines 164-188) -/

/-- Sort key of the aggregation stage `$sort: (completed_at, -1)`. -/
def completed_key (t : Task) : Nat := t.completed_at.getD 0

/-- One comparison step of the descending sort on `completed_at`: keep the
later of the two documents. -/
def pick_latest (a u : Task) : Task :=
  if completed_key a < completed_key u then u else a

/-- The single document surviving `$sort: (completed_at, -1)` and
`$limit: 1`: a task with maximal `completed_at` among the given ones. -/
def latest_terminal : List Task → Option Task
  | [] => none
  | t :: ts => some (ts.foldl pick_latest t)

/-- The `$match` stage of `TaskRepository.get_conversation_state`: tasks of
the conversation whose `completed_at` field exists. -/
def terminal_tasks (s : Store) (conversation_id : Nat) : List Task :=
  s.tasks.filter (fun t => t.conversation_id == conversation_id && t.completed_at.isSome)

/-- `TaskRepository.get_conversation_state`: latest task by `completed_at`
among those having `completed_at`, its `agent_state` returned when truthy
(a non-empty dict). -/
def repo_get_conversation_state (s : Store) (conversation_id : Nat) : Option JsonObj :=
  match latest_terminal (terminal_tasks s conversation_id) with
  | none => none
  | some t => if t.agent_state.isEmpty then none else some t.agent_state

/-- `TaskService.get_conversation_state` (app/services/task.py lines
319-326): ownership check, then the repository lookup. -/
def get_conversation_state (s : Store) (conversation_id user_id : Nat) : Option JsonObj :=
  match get_user_conversation s conversation_id user_id with
  | none => none
  | some _ => repo_get_conversation_state s conversation_id

/-! ### Conversation service (app/services/conversation.py) -/

/-- `ConversationService.create_conversation` with `BaseRepository.create`:
insert a conversation with an empty `task_ids` list, `is_active = True`,
stamped timestamps and a generated id. -/
def create_conversation (s : Store) (user_id : Nat) (title : Str)
    (description : Option String) (metadata : JsonObj) (now : Nat) :
    Store × Conversation :=
  let c : Conversation :=
    { id := s.nextId, user_id := user_id, title := title
      description := description, task_ids := [], is_active := true
      metadata := metadata, created_at := now, updated_at := now }
  ({ s with conversations := s.conversations ++ [c], nextId := s.nextId + 1 }, c)

/-- `ConversationService.delete_conversation` (lines 86-97): ownership check,
delete all of the conversation's tasks, then the conversation itself. -/
def delete_conversation (s : Store) (conversation_id user_id : Nat) : Store × Bool :=
  match get_user_conversation s conversation_id user_id with
  | none => (s, false)
  | some _ =>
      delete_user_conversation (delete_conversation_tasks s conversation_id)
        conversation_id user_id

/-- `ConversationUpdate` (app/api/v1/schemas.py): optional fields of
`PUT /conversations`. -/
structure ConversationUpdate where
  title : Option Str
  description : Option String
  is_active : Option Bool
  metadata : Option JsonObj
  deriving Repr, DecidableEq

/-- The update dict built by `ConversationService.update_conversation` is
empty: every optional field is None. -/
def ConversationUpdate.isEmpty (u : ConversationUpdate) : Bool :=
  u.title.isNone && u.description.isNone && u.is_active.isNone && u.metadata.isNone

/-- The `$set` document of `ConversationService.update_conversation` applied
to a conversation, with `updated_at` stamped by `BaseRepository.update`. -/
def apply_conversation_update (c : Conversation) (u : ConversationUpdate) (now : Nat) :
    Conversation :=
  { c with
    title := u.title.getD c.title
    description := match u.description with | some d => some d | none => c.description
    is_active := u.is_active.getD c.is_active
    metadata := u.metadata.getD c.metadata
    updated_at := now }

/-- `ConversationService.update_conversation` (lines 58-84). -/
def update_conversation (s : Store) (conversation_id user_id : Nat)
    (u : ConversationUpdate) (now : Nat) : Store × Option Conversation :=
  match get_user_conversation s conversation_id user_id with
  | none => (s, none)
  | some c =>
      if u.isEmpty then (s, some c)
      else
        let r := update_first_conversation s.conversations conversation_id
          (fun x => apply_conversation_update x u now)
        ({ s with conversations := r.1 }, r.2)

/-! ### Task service (app/services/task.py) -/

/-- `TaskCreate` (app/api/v1/schemas.py): body of `POST /tasks`. -/
structure TaskCreate where
  conversation_id : Option Nat
  user_message : Str
  category : Option String
  tags : List String
  priority : String
  estimated_duration : Option Nat
  metadata : JsonObj
  deriving Repr, DecidableEq

/-- Title synthesized by `TaskService.create_task` (line 29): the user
message sliced to its first 50 characters, an ellipsis appended when the
message is longer than 50 characters. -/
def conversation_title (user_message : Str) : Str :=
  user_message.take 50 ++ (if user_message.length > 50 then "...".toList else [])

/-- Title synthesized by `TaskService.create_soulcare_task` (line 237): a
"Soulcare: " marker, the user message sliced to its first 40 characters,
an ellipsis appended when the message is longer than 40 characters. -/
def soulcare_title (user_message : Str) : Str :=
  "Soulcare: ".toList ++ user_message.take 40
    ++ (if user_message.length > 40 then "...".toList else [])

/-- `TaskService.create_task` (lines 20-63): derive a conversation when none
is supplied, insert the task in status "pending" with an empty message
list, then `$addToSet` the task id into the conversation. -/
def create_task (s : Store) (user_id : Nat) (task_data : TaskCreate) (now : Nat) :
    Store × Task :=
  let sc : Store × Nat :=
    match task_data.conversation_id with
    | some cid => (s, cid)
    | none =>
        let r := create_conversation s user_id
          (conversation_title task_data.user_message)
          (some "Auto-generated conversation") [("auto_generated", "true")] now
        (r.1, r.2.id)
  let s1 := sc.1
  let conversation_id := sc.2
  let task : Task :=
    { id := s1.nextId, conversation_id := conversation_id, user_id := user_id
      user_message := task_data.user_message, messages := []
      status := "pending", priority := task_data.priority
      category := task_data.category, tags := task_data.tags
      completion_percentage := 0
      estimated_duration := task_data.estimated_duration, actual_duration := none
      metadata := task_data.metadata, agent_type := none, agent_state := []
      started_at := none, completed_at := none, error_message := none
      created_at := now, updated_at := now }
  let s2 : Store := { s1 with tasks := s1.tasks ++ [task], nextId := s1.nextId + 1 }
  ((add_task_to_conversation s2 conversation_id task.id now).1, task)

/-- `TaskService.create_soulcare_task` (lines 224-272): derive a "Soulcare"
conversation when none is supplied, insert the task in status
"in_progress" with `started_at` stamped and `agent_type` "soulcare", then
`$addToSet` the task id into the conversation. -/
def create_soulcare_task (s : Store) (user_id : Nat) (user_message : Str)
    (conversation_id : Option Nat) (metadata : Option JsonObj) (now : Nat) :
    Store × Task :=
  let sc : Store × Nat :=
    match conversation_id with
    | some cid => (s, cid)
    | none =>
        let r := create_conversation s user_id (soulcare_title user_message)
          (some "Soulcare conversation")
          [("auto_generated", "true"), ("type", "soulcare")] now
        (r.1, r.2.id)
  let s1 := sc.1
  let cid := sc.2
  let task : Task :=
    { id := s1.nextId, conversation_id := cid, user_id := user_id
      user_message := user_message, messages := []
      status := "in_progress", priority := "medium"
      category := some "soulcare"
      tags := ["soulcare", "life-advice", "emotional-support"]
      completion_percentage := 0
      estimated_duration := none, actual_duration := none
      metadata := metadata.getD [], agent_type := some "soulcare"
      agent_state := []
      started_at := some now, completed_at := none, error_message := none
      created_at := now, updated_at := now }
  let s2 : Store := { s1 with tasks := s1.tasks ++ [task], nextId := s1.nextId + 1 }
  ((add_task_to_conversation s2 cid task.id now).1, task)

/-- Python truthiness of the optional `error_message` string. -/
def strTruthy : Option String → Bool
  | none => false
  | some s => s != ""

/-- The `$set` document built by `TaskService.update_task_with_agent_state`
(lines 282-294) applied to a task document, with `updated_at` stamped by
`BaseRepository.update`: `agent_state`, the caller's status, a fresh
`completed_at`; a truthy error message overwrites the status with "failed";
a caller status "completed" sets `completion_percentage` to 100. -/
def apply_agent_state_update (t : Task) (agent_state : JsonObj) (status : String)
    (error_message : Option String) (now : Nat) : Task :=
  { t with
    agent_state := agent_state
    status := if strTruthy error_message then "failed" else status
    completed_at := some now
    error_message := if strTruthy error_message then error_message else t.error_message
    completion_percentage :=
      if status == "completed" then 100 else t.completion_percentage
    updated_at := now }

/-- `TaskService.update_task_with_agent_state` (lines 274-295):
`BaseRepository.update` of the `$set` document on the task with the given
id. -/
def update_task_with_agent_state (s : Store) (task_id : Nat) (agent_state : JsonObj)
    (status : String) (error_message : Option String) (now : Nat) :
    Store × Option Task :=
  let r := update_first_task s.tasks task_id
    (fun t => apply_agent_state_update t agent_state status error_message now)
  ({ s with tasks := r.1 }, r.2)

/-- `TaskUpdate` (app/api/v1/schemas.py): optional fields of `PUT /tasks`. -/
structure TaskUpdate where
  status : Option String
  priority : Option String
  category : Option String
  tags : Option (List String)
  completion_percentage : Option Nat
  estimated_duration : Option Nat
  actual_duration : Option Nat
  metadata : Option JsonObj
  deriving Repr, DecidableEq

/-- The update dict built by `TaskService.update_task` is empty: every
optional field is None. -/
def TaskUpdate.isEmpty (u : TaskUpdate) : Bool :=
  u.status.isNone && u.priority.isNone && u.category.isNone && u.tags.isNone &&
  u.completion_percentage.isNone && u.estimated_duration.isNone &&
  u.actual_duration.isNone && u.metadata.isNone

/-- The `$set` document of `TaskService.update_task` applied to a task. -/
def apply_task_update (t : Task) (u : TaskUpdate) (now : Nat) : Task :=
  { t with
    status := u.status.getD t.status
    priority := u.priority.getD t.priority
    category := match u.category with | some c => some c | none => t.category
    tags := u.tags.getD t.tags
    completion_percentage := u.completion_percentage.getD t.completion_percentage
    estimated_duration :=
      match u.estimated_duration with | some d => some d | none => t.estimated_duration
    actual_duration :=
      match u.actual_duration with | some d => some d | none => t.actual_duration
    metadata := u.metadata.getD t.metadata
    updated_at := now }

/-- `TaskService.update_task` (lines 98-132): ownership check, then
`BaseRepository.update` of the collected non-None fields (returning the
unchanged task when every field is None). -/
def update_task (s : Store) (task_id user_id : Nat) (u : TaskUpdate) (now : Nat) :
    Store × Option Task :=
  match get_user_task s task_id user_id with
  | none => (s, none)
  | some t =>
      if u.isEmpty then (s, some t)
      else
        let r := update_first_task s.tasks task_id (fun x => apply_task_update x u now)
        ({ s with tasks := r.1 }, r.2)

/-- `TaskService.delete_task` (lines 134-147): ownership check, remove the
id from the parent conversation, then delete the task. -/
def delete_task (s : Store) (task_id user_id now : Nat) : Store × Bool :=
  match get_user_task s task_id user_id with
  | none => (s, false)
  | some t =>
      delete_user_task
        (remove_task_from_conversation s t.conversation_id task_id now).1
        task_id user_id

/-! ### Chat service (app/services/chat.py) and pagination (app/api/deps.py) -/

/-- `ChatResponse` (app/api/v1/schemas.py): body of `POST /chat`. -/
structure ChatResponse where
  task_id : Nat
  conversation_id : Nat
  user_message : ChatMessage
  assistant_responses : List ChatMessage
  deriving Repr, DecidableEq

/-- `ChatService.process_message` (app/services/chat.py lines 14-40): build a
`TaskCreate` with priority "medium" and tag "chat", create the task, then
read `task.messages[0]`. The Python unconditionally evaluates
`user_message.model_dump()`, raising `AttributeError` when the created task
has no messages; that crash path is returned as `none`. -/
def process_message (s : Store) (user_id : Nat) (message : Str)
    (conversation_id : Option Nat) (metadata : JsonObj) (now : Nat) :
    Store × Option ChatResponse :=
  let task_data : TaskCreate :=
    { conversation_id := conversation_id, user_message := message
      category := none, tags := ["chat"], priority := "medium"
      estimated_duration := none, metadata := metadata }
  let r := create_task s user_id task_data now
  match r.2.messages.head? with
  | none => (r.1, none)
  | some m =>
      (r.1, some { task_id := r.2.id, conversation_id := r.2.conversation_id
                   user_message := m, assistant_responses := [] })

/-- `CommonQueryParams` (app/api/deps.py lines 111-124): the effective
pagination parameters of the list endpoints. -/
structure CommonQueryParams where
  skip : Int
  limit : Int
  sort_by : String
  sort_order : Int
  deriving Repr, DecidableEq

/-- `CommonQueryParams.__init__`: clamp `skip` to be nonnegative and `limit`
into 1..100. -/
def CommonQueryParams.make (skip limit : Int) (sort_by : String) (sort_order : Int) :
    CommonQueryParams :=
  { skip := max 0 skip, limit := min 100 (max 1 limit)
    sort_by := sort_by, sort_order := sort_order }

/-- The declared query defaults of the list endpoints: skip 0, limit 20,
sorted by `created_at` descending. -/
def default_params : CommonQueryParams :=
  CommonQueryParams.make 0 20 "created_at" (-1)

/-! ### Concrete sample stores used by witnesses and counterexamples -/

/-- The empty database. -/
def init_store : Store := { tasks := [], conversations := [], nextId := 1 }

/-- A task of user 7 in conversation 10, still pending. -/
def tk1 : Task :=
  { id := 1, conversation_id := 10, user_id := 7
    user_message := "hello".toList, messages := []
    status := "pending", priority := "medium", category := none, tags := []
    completion_percentage := 0, estimated_duration := none, actual_duration := none
    metadata := [], agent_type := none, agent_state := []
    started_at := none, completed_at := none, error_message := none
    created_at := 0, updated_at := 0 }

/-- A conversation of user 7 holding task 1. -/
def cv1 : Conversation :=
  { id := 10, user_id := 7, title := "hello".toList, description := none
    task_ids := [1], is_active := true, metadata := []
    created_at := 0, updated_at := 0 }

/-- A store with one conversation and one pending task, both of user 7. -/
def store1 : Store := { tasks := [tk1], conversations := [cv1], nextId := 11 }

/-- A failed (not completed) task of user 7 in conversation 10 whose
`completed_at` is set and whose `agent_state` is non-empty. -/
def tk_failed : Task :=
  { tk1 with
    id := 2
    status := "failed"
    completed_at := some 5
    error_message := some "boom"
    agent_state := [("memory", "x")] }

/-- A store whose only terminal task failed: no task has status
"completed". -/
def store_cx : Store :=
  { tasks := [tk_failed], conversations := [{ cv1 with task_ids := [2] }],
    nextId := 12 }

/-- Two tasks of user 7 in conversation 20. -/
def tk21 : Task := { tk1 with id := 21, conversation_id := 20 }

/-- Second task of user 7 in conversation 20. -/
def tk22 : Task := { tk1 with id := 22, conversation_id := 20 }

/-- The conversation of user 7 holding tasks 21 and 22. -/
def cv20 : Conversation :=
  { cv1 with id := 20, task_ids := [21, 22] }

/-- A store with one conversation holding two tasks, all of user 7. -/
def store_w2 : Store :=
  { tasks := [tk21, tk22], conversations := [cv20], nextId := 23 }

/-- A `PUT /tasks` body with every optional field absent. -/
def tu_none : TaskUpdate :=
  { status := none, priority := none, category := none, tags := none
    completion_percentage := none, estimated_duration := none
    actual_duration := none, metadata := none }

/-- A `PUT /conversations` body with every optional field absent. -/
def cu_none : ConversationUpdate :=
  { title := none, description := none, is_active := none, metadata := none }

/-- The `TaskCreate` that `ChatService.process_message` builds for a chat
message "Help me plan a trip" without a conversation id. -/
def td_w : TaskCreate :=
  { conversation_id := none, user_message := "Help me plan a trip".toList
    category := none, tags := ["chat"], priority := "medium"
    estimated_duration := none, metadata := [] }

/-! ### Helper lemmas about the collection primitives -/

theorem update_first_task_res {ts : List Task} {task_id : Nat} {f : Task → Task}
    {r : Task} (h : (update_first_task ts task_id f).2 = some r) :
    ∃ t ∈ ts, r = f t := by
  induction ts with
  | nil => simp [update_first_task] at h
  | cons t rest ih =>
      by_cases hid : t.id == task_id
      · simp [update_first_task, hid] at h
        exact ⟨t, List.mem_cons_self t rest, h.symm⟩
      · simp [update_first_task, hid] at h
        obtain ⟨u, hu, hr⟩ := ih h
        exact ⟨u, List.mem_cons_of_mem t hu, hr⟩

theorem update_first_task_comp (ts : List Task) (task_id : Nat) (f g : Task → Task)
    (hf : ∀ t, (f t).id = t.id) :
    update_first_task (update_first_task ts task_id f).1 task_id g
      = ((update_first_task ts task_id (fun t => g (f t))).1,
         (update_first_task ts task_id f).2.map g) := by
  induction ts with
  | nil => simp [update_first_task]
  | cons t rest ih =>
      by_cases hid : t.id == task_id
      · simp [update_first_task, hid, hf]
      · simp [update_first_task, hid, ih]

theorem apply_agent_state_update_id (t : Task) (blob : JsonObj) (status : String)
    (err : Option String) (now : Nat) :
    (apply_agent_state_update t blob status err now).id = t.id := rfl

theorem apply_agent_state_update_twice (t : Task) (blob : JsonObj) (status : String)
    (err : Option String) (t1 t2 : Nat) :
    apply_agent_state_update (apply_agent_state_update t blob status err t1)
        blob status err t2
      = { apply_agent_state_update t blob status err t1 with
          completed_at := some t2
          updated_at := t2 } := by
  by_cases he : strTruthy err <;> by_cases hs : status == "completed" <;>
    simp [apply_agent_state_update, he, hs]

theorem apply_agent_state_update_idem (t : Task) (blob : JsonObj) (status : String)
    (err : Option String) (now : Nat) :
    apply_agent_state_update (apply_agent_state_update t blob status err now)
        blob status err now
      = apply_agent_state_update t blob status err now := by
  rw [apply_agent_state_update_twice]
  simp [apply_agent_state_update]

theorem mem_update_first_conversation {cs : List Conversation} {cid : Nat}
    {f : Conversation → Conversation} {c : Conversation}
    (hc : c ∈ (update_first_conversation cs cid f).1) :
    c ∈ cs ∨ ∃ c0 ∈ cs, c = f c0 := by
  induction cs with
  | nil => simp [update_first_conversation] at hc
  | cons c0 rest ih =>
      by_cases hid : c0.id == cid
      · simp [update_first_conversation, hid] at hc
        rcases hc with hc | hc
        · exact Or.inr ⟨c0, List.mem_cons_self c0 rest, hc⟩
        · exact Or.inl (List.mem_cons_of_mem c0 hc)
      · simp [update_first_conversation, hid] at hc
        rcases hc with hc | hc
        · exact Or.inl (by simp [hc])
        · rcases ih hc with h1 | ⟨c1, hc1, hc2⟩
          · exact Or.inl (List.mem_cons_of_mem c0 h1)
          · exact Or.inr ⟨c1, List.mem_cons_of_mem c0 hc1, hc2⟩

/-! ### C9: pagination clamping -/

/-- C9: on the list endpoints the effective limit is the requested limit
clamped into 1..100 and the effective skip is the requested skip clamped to
be nonnegative, with declared defaults skip 0 and limit 20. -/
theorem C9_pagination (skip limit : Int) (sort_by : String) (sort_order : Int) :
    1 ≤ (CommonQueryParams.make skip limit sort_by sort_order).limit ∧
    (CommonQueryParams.make skip limit sort_by sort_order).limit ≤ 100 ∧
    0 ≤ (CommonQueryParams.make skip limit sort_by sort_order).skip ∧
    (limit ≤ 0 → (CommonQueryParams.make skip limit sort_by sort_order).limit = 1) ∧
    (100 ≤ limit → (CommonQueryParams.make skip limit sort_by sort_order).limit = 100) ∧
    (1 ≤ limit → limit ≤ 100 →
      (CommonQueryParams.make skip limit sort_by sort_order).limit = limit) ∧
    (skip ≤ 0 → (CommonQueryParams.make skip limit sort_by sort_order).skip = 0) ∧
    (0 ≤ skip → (CommonQueryParams.make skip limit sort_by sort_order).skip = skip) ∧
    default_params.skip = 0 ∧ default_params.limit = 20 := by
  unfold default_params CommonQueryParams.make
  refine ⟨?_, ?_, ?_, ?_, ?_, ?_, ?_, ?_, by norm_num, by norm_num⟩ <;>
    simp <;> omega

/-- C9 witness: a requested limit of 0 becomes 1, of 500 becomes 100, and a
requested skip of -5 becomes 0. -/
theorem C9_pagination_witness :
    (CommonQueryParams.make 0 0 "created_at" (-1)).limit = 1 ∧
    (CommonQueryParams.make 0 500 "created_at" (-1)).limit = 100 ∧
    (CommonQueryParams.make (-5) 20 "created_at" (-1)).skip = 0 :=
  ⟨(C9_pagination 0 0 "created_at" (-1)).2.2.2.1 (by norm_num),
   (C9_pagination 0 500 "created_at" (-1)).2.2.2.2.1 (by norm_num),
   (C9_pagination (-5) 20 "created_at" (-1)).2.2.2.2.2.2.1 (by norm_num)⟩

/-! ### C10: no duplicate task ids in a conversation -/

/-- C10: `add_task_to_conversation` is a set-insert: the no-duplicates
invariant on `task_ids` is preserved by add and remove, inserting an
already-present id leaves the list unchanged, and inserting twice equals
inserting once. -/
theorem C10_task_ids_nodup (s : Store) (cid tid now : Nat) (l : List Nat)
    (h : ∀ c ∈ s.conversations, c.task_ids.Nodup) :
    (∀ c ∈ (add_task_to_conversation s cid tid now).1.conversations,
      c.task_ids.Nodup) ∧
    (∀ c ∈ (remove_task_from_conversation s cid tid now).1.conversations,
      c.task_ids.Nodup) ∧
    (tid ∈ l → addToSet l tid = l) ∧
    (addToSet (addToSet l tid) tid = addToSet l tid) := by
  refine ⟨?_, ?_, ?_, ?_⟩
  · intro c hc
    rcases mem_update_first_conversation
        (by simpa [add_task_to_conversation] using hc) with h1 | ⟨c0, hc0, rfl⟩
    · exact h c h1
    · by_cases hm : tid ∈ c0.task_ids
      · simpa [addToSet, hm] using h c0 hc0
      · simp only [addToSet, if_neg hm]
        refine List.nodup_append.2 ⟨h c0 hc0, List.nodup_singleton _, ?_⟩
        intro x hx hx'
        simp only [List.mem_singleton] at hx'
        subst hx'
        exact hm hx
  · intro c hc
    rcases mem_update_first_conversation
        (by simpa [remove_task_from_conversation] using hc) with h1 | ⟨c0, hc0, rfl⟩
    · exact h c h1
    · exact (h c0 hc0).filter _
  · intro hm
    simp [addToSet, hm]
  · by_cases hm : tid ∈ l
    · simp [addToSet, hm]
    · simp [addToSet, hm]

/-- C10 witness: the set-insert at concrete lists - inserting a present id
is a no-op, and inserting twice equals inserting once. -/
theorem C10_task_ids_nodup_witness :
    addToSet [2] 2 = [2] ∧ addToSet (addToSet [1] 2) 2 = addToSet [1] 2 :=
  ⟨(C10_task_ids_nodup store1 10 2 1 [2] (by decide)).2.2.1 (by decide),
   (C10_task_ids_nodup store1 10 2 1 [1] (by decide)).2.2.2⟩

/-! ### C2: the terminal write -/

/-- C2: `update_task_with_agent_state` sets `agent_state` to the blob and
`completed_at` to the current time; when the final status is "completed"
the completion percentage is 100; and a truthy error message forces the
final status to "failed" no matter which status the caller supplied. -/
theorem C2_terminal_write (s : Store) (task_id : Nat) (blob : JsonObj)
    (status : String) (error_message : Option String) (now : Nat) (t' : Task)
    (h : (update_task_with_agent_state s task_id blob status error_message now).2
      = some t') :
    t'.agent_state = blob ∧ t'.completed_at = some now ∧
    (t'.status = "completed" → t'.completion_percentage = 100) ∧
    (strTruthy error_message = true → t'.status = "failed") := by
  obtain ⟨t, -, rfl⟩ :=
    update_first_task_res (by simpa [update_task_with_agent_state] using h)
  refine ⟨rfl, rfl, ?_, ?_⟩
  · intro hs
    simp only [apply_agent_state_update] at hs ⊢
    by_cases he : strTruthy error_message
    · simp [he] at hs
    · simp only [he, Bool.false_eq_true, if_false, if_neg] at hs
      simp [hs]
  · intro he
    simp [apply_agent_state_update, he]

/-- C2 witness: the terminal write at a concrete task. -/
theorem C2_terminal_write_witness :
    (apply_agent_state_update tk1 [("k", "v")] "completed" none 5).agent_state
        = [("k", "v")] ∧
    (apply_agent_state_update tk1 [("k", "v")] "completed" none 5).completed_at
        = some 5 ∧
    ((apply_agent_state_update tk1 [("k", "v")] "completed" none 5).status
        = "completed" →
      (apply_agent_state_update tk1 [("k", "v")] "completed"
        none 5).completion_percentage = 100) ∧
    (strTruthy none = true →
      (apply_agent_state_update tk1 [("k", "v")] "completed" none 5).status
        = "failed") :=
  C2_terminal_write store1 1 [("k", "v")] "completed" none 5 _ rfl

/-! ### C4: retrying the terminal write -/

/-- C4 counterexample: retrying the same terminal write at a later time does
change `completed_at` (the claim says the first write's `completed_at` is
authoritative and the second call changes nothing). -/
theorem C4_completed_at_counterexample :
    (update_task_with_agent_state
        (update_task_with_agent_state store1 1 [("k", "v")] "completed" none 1).1
        1 [("k", "v")] "completed" none 2).2.map Task.completed_at
      ≠ (update_task_with_agent_state store1 1 [("k", "v")] "completed"
          none 1).2.map Task.completed_at := by decide

/-- C4 amended: retrying the same terminal write leaves the task identical
except that `completed_at` and `updated_at` are restamped with the second
call's time (the second write's timestamp is authoritative); a retry
carrying the same timestamp changes nothing at all. -/
theorem C4_retry_amended (s : Store) (task_id : Nat) (blob : JsonObj)
    (status : String) (err : Option String) (t1 t2 : Nat) :
    (∀ u, (update_task_with_agent_state s task_id blob status err t1).2 = some u →
      (update_task_with_agent_state
          (update_task_with_agent_state s task_id blob status err t1).1
          task_id blob status err t2).2
        = some { u with completed_at := some t2, updated_at := t2 }) ∧
    (update_task_with_agent_state
        (update_task_with_agent_state s task_id blob status err t1).1
        task_id blob status err t1
      = update_task_with_agent_state s task_id blob status err t1) := by
  have hcomp := update_first_task_comp s.tasks task_id
    (fun t => apply_agent_state_update t blob status err t1)
    (fun t => apply_agent_state_update t blob status err t2)
    (fun t => rfl)
  have hcomp1 := update_first_task_comp s.tasks task_id
    (fun t => apply_agent_state_update t blob status err t1)
    (fun t => apply_agent_state_update t blob status err t1)
    (fun t => rfl)
  constructor
  · intro u hu
    simp only [update_task_with_agent_state] at hu ⊢
    rw [hcomp]
    obtain ⟨t, -, rfl⟩ := update_first_task_res hu
    simp [hu, apply_agent_state_update_twice]
  · simp only [update_task_with_agent_state]
    rw [hcomp1]
    have hfun : (fun t => apply_agent_state_update
        (apply_agent_state_update t blob status err t1) blob status err t1)
        = (fun t => apply_agent_state_update t blob status err t1) :=
      funext fun t => apply_agent_state_update_idem t blob status err t1
    rw [hfun]
    cases hr : (update_first_task s.tasks task_id
        (fun t => apply_agent_state_update t blob status err t1)).2 with
    | none => simp [hr]
    | some u =>
        obtain ⟨t, -, rfl⟩ := update_first_task_res hr
        simp [hr, apply_agent_state_update_idem]

/-- C4 witness: the retry behaviour at a concrete task and two times. -/
theorem C4_retry_witness :
    (update_task_with_agent_state
        (update_task_with_agent_state store1 1 [("k", "v")] "completed" none 1).1
        1 [("k", "v")] "completed" none 2).2
      = some { apply_agent_state_update tk1 [("k", "v")] "completed" none 1 with
               completed_at := some 2
               updated_at := 2 } :=
  (C4_retry_amended store1 1 [("k", "v")] "completed" none 1 2).1 _ rfl

/-! ### Helper lemmas for the ownership and deletion claims -/

theorem update_first_task_of_find? {ts : List Task} {task_id user_id : Nat} {t0 : Task}
    (hnd : (ts.map Task.id).Nodup)
    (hfind : ts.find? (fun t => t.id == task_id && t.user_id == user_id) = some t0)
    (f : Task → Task) :
    (update_first_task ts task_id f).2 = some (f t0) := by
  induction ts with
  | nil => simp at hfind
  | cons t rest ih =>
      simp only [List.map_cons, List.nodup_cons] at hnd
      by_cases hid : t.id = task_id
      · by_cases hu : t.user_id = user_id
        · rw [List.find?_cons_of_pos _ (by simp [hid, hu])] at hfind
          have heq : t = t0 := by simpa using hfind
          subst heq
          simp [update_first_task, hid]
        · rw [List.find?_cons_of_neg _ (by simp [hu])] at hfind
          have ht0 : t0 ∈ rest := List.mem_of_find?_eq_some hfind
          have hp := List.find?_some hfind
          have ht0id : t0.id = task_id := by
            simp only [Bool.and_eq_true, beq_iff_eq] at hp
            exact hp.1
          have : t.id ∈ rest.map Task.id := by
            rw [hid, ← ht0id]
            exact List.mem_map_of_mem Task.id ht0
          exact absurd this hnd.1
      · rw [List.find?_cons_of_neg _ (by simp [hid])] at hfind
        simp only [update_first_task, beq_iff_eq, if_neg hid]
        exact ih hnd.2 hfind

theorem update_first_conversation_of_find? {cs : List Conversation}
    {conversation_id user_id : Nat} {c0 : Conversation}
    (hnd : (cs.map Conversation.id).Nodup)
    (hfind : cs.find?
      (fun c => c.id == conversation_id && c.user_id == user_id) = some c0)
    (f : Conversation → Conversation) :
    (update_first_conversation cs conversation_id f).2 = some (f c0) := by
  induction cs with
  | nil => simp at hfind
  | cons c rest ih =>
      simp only [List.map_cons, List.nodup_cons] at hnd
      by_cases hid : c.id = conversation_id
      · by_cases hu : c.user_id = user_id
        · rw [List.find?_cons_of_pos _ (by simp [hid, hu])] at hfind
          have heq : c = c0 := by simpa using hfind
          subst heq
          simp [update_first_conversation, hid]
        · rw [List.find?_cons_of_neg _ (by simp [hu])] at hfind
          have hc0 : c0 ∈ rest := List.mem_of_find?_eq_some hfind
          have hp := List.find?_some hfind
          have hc0id : c0.id = conversation_id := by
            simp only [Bool.and_eq_true, beq_iff_eq] at hp
            exact hp.1
          have : c.id ∈ rest.map Conversation.id := by
            rw [hid, ← hc0id]
            exact List.mem_map_of_mem Conversation.id hc0
          exact absurd this hnd.1
      · rw [List.find?_cons_of_neg _ (by simp [hid])] at hfind
        simp only [update_first_conversation, beq_iff_eq, if_neg hid]
        exact ih hnd.2 hfind

theorem apply_task_update_user (t : Task) (u : TaskUpdate) (now : Nat) :
    (apply_task_update t u now).user_id = t.user_id := rfl

theorem apply_conversation_update_user (c : Conversation) (u : ConversationUpdate)
    (now : Nat) : (apply_conversation_update c u now).user_id = c.user_id := rfl

/-! ### C5: ownership collapses to not-found -/

/-- C5: reads return only the caller's own documents; a foreign-owned or
absent entity produces exactly the not-found outcome on read, update and
delete, for tasks and conversations alike; and in a well-formed store the
update operations only ever return documents owned by the caller. -/
theorem C5_ownership (s : Store) (eid uid : Nat) (u : TaskUpdate)
    (v : ConversationUpdate) (now : Nat) :
    (∀ t, get_user_task s eid uid = some t → t.user_id = uid ∧ t.id = eid) ∧
    (∀ c, get_user_conversation s eid uid = some c → c.user_id = uid ∧ c.id = eid) ∧
    ((∀ t ∈ s.tasks, t.id = eid → t.user_id ≠ uid) →
      get_user_task s eid uid = none ∧
      update_task s eid uid u now = (s, none) ∧
      delete_task s eid uid now = (s, false)) ∧
    ((∀ c ∈ s.conversations, c.id = eid → c.user_id ≠ uid) →
      get_user_conversation s eid uid = none ∧
      update_conversation s eid uid v now = (s, none) ∧
      delete_conversation s eid uid = (s, false)) ∧
    (s.WF → ∀ t, (update_task s eid uid u now).2 = some t → t.user_id = uid) ∧
    (s.WF → ∀ c, (update_conversation s eid uid v now).2 = some c →
      c.user_id = uid) := by
  have htask : ∀ t, get_user_task s eid uid = some t → t.user_id = uid ∧ t.id = eid := by
    intro t ht
    have hp := List.find?_some ht
    simp only [Bool.and_eq_true, beq_iff_eq] at hp
    exact ⟨hp.2, hp.1⟩
  have hconv : ∀ c, get_user_conversation s eid uid = some c →
      c.user_id = uid ∧ c.id = eid := by
    intro c hc
    have hp := List.find?_some hc
    simp only [Bool.and_eq_true, beq_iff_eq] at hp
    exact ⟨hp.2, hp.1⟩
  refine ⟨htask, hconv, ?_, ?_, ?_, ?_⟩
  · intro hno
    have hgn : get_user_task s eid uid = none := by
      rw [get_user_task, List.find?_eq_none]
      intro t htm
      simp only [Bool.and_eq_true, beq_iff_eq, not_and]
      exact fun hid => hno t htm hid
    exact ⟨hgn, by simp [update_task, hgn], by simp [delete_task, hgn]⟩
  · intro hno
    have hgn : get_user_conversation s eid uid = none := by
      rw [get_user_conversation, List.find?_eq_none]
      intro c hcm
      simp only [Bool.and_eq_true, beq_iff_eq, not_and]
      exact fun hid => hno c hcm hid
    exact ⟨hgn, by simp [update_conversation, hgn],
      by simp [delete_conversation, hgn]⟩
  · intro hwf t ht
    rw [update_task] at ht
    cases hg : get_user_task s eid uid with
    | none => rw [hg] at ht; simp at ht
    | some t1 =>
        rw [hg] at ht
        by_cases hemp : u.isEmpty
        · simp only [hemp, if_true] at ht
          have : t1 = t := by simpa using ht
          subst this
          exact (htask t1 hg).1
        · simp only [hemp, Bool.false_eq_true, if_false] at ht
          rw [update_first_task_of_find? hwf.1 hg] at ht
          have : apply_task_update t1 u now = t := by simpa using ht
          subst this
          rw [apply_task_update_user]
          exact (htask t1 hg).1
  · intro hwf c hc
    rw [update_conversation] at hc
    cases hg : get_user_conversation s eid uid with
    | none => rw [hg] at hc; simp at hc
    | some c1 =>
        rw [hg] at hc
        by_cases hemp : v.isEmpty
        · simp only [hemp, if_true] at hc
          have : c1 = c := by simpa using hc
          subst this
          exact (hconv c1 hg).1
        · simp only [hemp, Bool.false_eq_true, if_false] at hc
          rw [update_first_conversation_of_find? hwf.2 hg] at hc
          have : apply_conversation_update c1 v now = c := by simpa using hc
          subst this
          rw [apply_conversation_update_user]
          exact (hconv c1 hg).1

/-- C5 witness: user 8 reading, updating or deleting user 7's task 1 gets
the not-found outcome. -/
theorem C5_ownership_witness :
    get_user_task store1 1 8 = none ∧
    update_task store1 1 8 tu_none 3 = (store1, none) ∧
    delete_task store1 1 8 3 = (store1, false) :=
  (C5_ownership store1 1 8 tu_none cu_none 3).2.2.1 (by decide)

/-! ### Helper lemmas for the resumable-state claim -/

theorem foldl_pick_latest_mem (t : Task) (ts : List Task) :
    ts.foldl pick_latest t = t ∨ ts.foldl pick_latest t ∈ ts := by
  induction ts generalizing t with
  | nil => exact Or.inl rfl
  | cons u rest ih =>
      rw [List.foldl_cons]
      rcases ih (pick_latest t u) with h | h
      · rw [h]
        unfold pick_latest
        by_cases hlt : completed_key t < completed_key u
        · rw [if_pos hlt]
          exact Or.inr (List.mem_cons_self u rest)
        · rw [if_neg hlt]
          exact Or.inl rfl
      · exact Or.inr (List.mem_cons_of_mem u h)

theorem foldl_pick_latest_le (t : Task) (ts : List Task) :
    completed_key t ≤ completed_key (ts.foldl pick_latest t) ∧
    ∀ u ∈ ts, completed_key u ≤ completed_key (ts.foldl pick_latest t) := by
  induction ts generalizing t with
  | nil => exact ⟨le_refl _, by simp⟩
  | cons v rest ih =>
      rw [List.foldl_cons]
      obtain ⟨h1, h2⟩ := ih (pick_latest t v)
      have hbase : completed_key t ≤ completed_key (pick_latest t v) := by
        unfold pick_latest
        by_cases h : completed_key t < completed_key v
        · rw [if_pos h]; exact Nat.le_of_lt h
        · rw [if_neg h]
      have hstep : completed_key v ≤ completed_key (pick_latest t v) := by
        unfold pick_latest
        by_cases h : completed_key t < completed_key v
        · rw [if_pos h]
        · rw [if_neg h]; exact Nat.le_of_not_lt h
      refine ⟨le_trans hbase h1, ?_⟩
      intro u hu
      rcases List.mem_cons.1 hu with rfl | hu
      · exact le_trans hstep h1
      · exact h2 u hu

theorem latest_terminal_spec {ts : List Task} {t : Task}
    (h : latest_terminal ts = some t) :
    t ∈ ts ∧ ∀ u ∈ ts, completed_key u ≤ completed_key t := by
  cases ts with
  | nil => simp [latest_terminal] at h
  | cons a rest =>
      have heq : rest.foldl pick_latest a = t := by simpa [latest_terminal] using h
      subst heq
      obtain ⟨h1, h2⟩ := foldl_pick_latest_le a rest
      refine ⟨?_, ?_⟩
      · rcases foldl_pick_latest_mem a rest with hm | hm
        · rw [hm]; exact List.mem_cons_self a rest
        · exact List.mem_cons_of_mem a hm
      · intro u hu
        rcases List.mem_cons.1 hu with rfl | hu
        · exact h1
        · exact h2 u hu

/-! ### C1: the resumable-state lookup -/

/-- C1 counterexample: a conversation whose only terminal task has status
"failed" (no task has status "completed") still yields that task's
`agent_state` — the lookup keys on `completed_at` existing, not on status
"completed". -/
theorem C1_failed_task_counterexample :
    store_cx.tasks.all (fun t => t.status != "completed") = true ∧
    get_conversation_state store_cx 10 7 = some [("memory", "x")] := by decide

/-- C1 amended: for the owning caller the lookup returns the `agent_state`
of the most recent task with `completed_at` set (terminal, whether completed
or failed), provided that state is a non-empty dict; it returns none when
the caller does not own the conversation or no task of the conversation has
`completed_at` set. -/
theorem C1_resumable_state_amended (s : Store) (cid uid : Nat) :
    (get_user_conversation s cid uid = none →
      get_conversation_state s cid uid = none) ∧
    ((∀ t ∈ s.tasks, t.conversation_id = cid → t.completed_at = none) →
      get_conversation_state s cid uid = none) ∧
    (∀ st, get_conversation_state s cid uid = some st →
      st ≠ [] ∧
      ∃ t ∈ s.tasks, t.conversation_id = cid ∧ t.completed_at.isSome = true ∧
        t.agent_state = st ∧
        ∀ u ∈ s.tasks, u.conversation_id = cid →
          completed_key u ≤ completed_key t) := by
  refine ⟨?_, ?_, ?_⟩
  · intro h
    simp [get_conversation_state, h]
  · intro hall
    rw [get_conversation_state]
    cases hc : get_user_conversation s cid uid with
    | none => rfl
    | some c =>
        have hnil : terminal_tasks s cid = [] := by
          rw [terminal_tasks, List.filter_eq_nil_iff]
          intro t ht
          simp only [Bool.and_eq_true, beq_iff_eq, not_and]
          intro hcid
          rw [hall t ht hcid]
          simp
        rw [repo_get_conversation_state, hnil]
        rfl
  · intro st h
    rw [get_conversation_state] at h
    cases hc : get_user_conversation s cid uid with
    | none => rw [hc] at h; simp at h
    | some c =>
        simp only [hc, repo_get_conversation_state] at h
        cases hl : latest_terminal (terminal_tasks s cid) with
        | none => rw [hl] at h; simp at h
        | some t =>
            simp only [hl] at h
            by_cases hemp : t.agent_state.isEmpty
            · rw [if_pos hemp] at h; simp at h
            · rw [if_neg hemp] at h
              have hst : t.agent_state = st := by simpa using h
              obtain ⟨hmem, hbound⟩ := latest_terminal_spec hl
              have hmf := List.mem_filter.1 hmem
              simp only [Bool.and_eq_true, beq_iff_eq] at hmf
              refine ⟨?_, t, hmf.1, hmf.2.1, hmf.2.2, hst, ?_⟩
              · rw [← hst]
                intro hnil
                rw [hnil] at hemp
                exact hemp rfl
              · intro w hw hwcid
                cases hc2 : w.completed_at with
                | none => simp [completed_key, hc2]
                | some ctime =>
                    exact hbound w (List.mem_filter.2
                      ⟨hw, by simp [hwcid, hc2]⟩)

/-- C1 witness: a caller who does not own the conversation gets none. -/
theorem C1_resumable_state_witness :
    get_conversation_state store_cx 10 8 = none :=
  (C1_resumable_state_amended store_cx 10 8).1 (by decide)

/-! ### Helper lemma for the conversation-synthesis claims -/

theorem update_first_conversation_append {cs : List Conversation} {c : Conversation}
    {cid : Nat} (f : Conversation → Conversation)
    (hne : ∀ c' ∈ cs, c'.id ≠ cid) (hc : c.id = cid) :
    update_first_conversation (cs ++ [c]) cid f = (cs ++ [f c], some (f c)) := by
  induction cs with
  | nil => simp [update_first_conversation, hc]
  | cons a rest ih =>
      have ha : a.id ≠ cid := hne a (List.mem_cons_self a rest)
      have ih' := ih fun c' hc' => hne c' (List.mem_cons_of_mem a hc')
      simp only [List.cons_append, update_first_conversation, beq_iff_eq, if_neg ha,
        List.append_eq]
      simp [ih']

/-! ### C7: the synthesized conversation of a plain task -/

/-- C7: creating a task without a conversation id synthesizes a conversation
whose task list holds exactly the new task's id and whose title is the user
message truncated to 50 characters, an ellipsis appended exactly when the
message is longer than 50 characters. -/
theorem C7_new_conversation (s : Store) (uid : Nat) (td : TaskCreate) (now : Nat)
    (hcid : td.conversation_id = none) (hfresh : s.Fresh) :
    ∃ c ∈ (create_task s uid td now).1.conversations,
      c.id = (create_task s uid td now).2.conversation_id ∧
      c.task_ids = [(create_task s uid td now).2.id] ∧
      (td.user_message.length ≤ 50 → c.title = td.user_message) ∧
      (50 < td.user_message.length →
        c.title = td.user_message.take 50 ++ "...".toList) := by
  obtain ⟨cidf, msg, cat, tags, prio, est, md⟩ := td
  dsimp only at hcid
  subst hcid
  have hne : ∀ c' ∈ s.conversations, c'.id ≠ s.nextId :=
    fun c' hc' => Nat.ne_of_lt (hfresh.2 c' hc')
  dsimp only [create_task, create_conversation, add_task_to_conversation]
  rw [update_first_conversation_append _ hne rfl]
  refine ⟨_, List.mem_append_right _ (List.mem_singleton_self _), rfl, ?_, ?_, ?_⟩
  · dsimp only
    simp [addToSet]
  · intro hlen
    dsimp only
    rw [conversation_title, if_neg (by omega)]
    simp [List.take_of_length_le hlen]
  · intro hlen
    dsimp only
    rw [conversation_title, if_pos (by omega)]

/-- C7 witness: the scenario message at the empty store. -/
theorem C7_new_conversation_witness :
    ∃ c ∈ (create_task init_store 7 td_w 0).1.conversations,
      c.id = (create_task init_store 7 td_w 0).2.conversation_id ∧
      c.task_ids = [(create_task init_store 7 td_w 0).2.id] ∧
      (td_w.user_message.length ≤ 50 → c.title = td_w.user_message) ∧
      (50 < td_w.user_message.length →
        c.title = td_w.user_message.take 50 ++ "...".toList) :=
  C7_new_conversation init_store 7 td_w 0 rfl (by decide)

/-! ### C6: the agent-driven task -/

/-- C6 counterexample: the conversation synthesized for an agent-driven task
is titled with a "Soulcare: " marker, not with the "agent-session" marker the
claim names. -/
theorem C6_title_counterexample :
    (create_soulcare_task init_store 7 "hi".toList none none 0).1.conversations.map
        Conversation.title = ["Soulcare: hi".toList] ∧
    "Soulcare: hi".toList.take 13 ≠ "agent-session".toList := by decide

/-- C6 amended: an agent-driven task creation without a conversation id
titles the synthesized conversation with a "Soulcare: " marker followed by
the user message truncated to 40 characters (ellipsis exactly when longer),
creates the task in status "in_progress" immediately, stamps `started_at`,
and records `agent_type` "soulcare" on the task. -/
theorem C6_soulcare_task_amended (s : Store) (uid : Nat) (msg : Str)
    (metadata : Option JsonObj) (now : Nat) (hfresh : s.Fresh) :
    (create_soulcare_task s uid msg none metadata now).2.status = "in_progress" ∧
    (create_soulcare_task s uid msg none metadata now).2.started_at = some now ∧
    (create_soulcare_task s uid msg none metadata now).2.agent_type
        = some "soulcare" ∧
    ∃ c ∈ (create_soulcare_task s uid msg none metadata now).1.conversations,
      c.id = (create_soulcare_task s uid msg none metadata now).2.conversation_id ∧
      c.title.take 10 = "Soulcare: ".toList ∧
      (msg.length ≤ 40 → c.title = "Soulcare: ".toList ++ msg) ∧
      (40 < msg.length →
        c.title = "Soulcare: ".toList ++ msg.take 40 ++ "...".toList) := by
  have hne : ∀ c' ∈ s.conversations, c'.id ≠ s.nextId :=
    fun c' hc' => Nat.ne_of_lt (hfresh.2 c' hc')
  refine ⟨rfl, rfl, rfl, ?_⟩
  dsimp only [create_soulcare_task, create_conversation, add_task_to_conversation]
  rw [update_first_conversation_append _ hne rfl]
  refine ⟨_, List.mem_append_right _ (List.mem_singleton_self _), rfl, ?_, ?_, ?_⟩
  · dsimp only
    rw [soulcare_title, List.append_assoc,
      List.take_append_of_le_length (by decide)]
    decide
  · intro hlen
    dsimp only
    rw [soulcare_title, if_neg (by omega)]
    simp [List.take_of_length_le hlen]
  · intro hlen
    dsimp only
    rw [soulcare_title, if_pos (by omega)]

/-- C6 witness: the amended behaviour at the empty store. -/
theorem C6_soulcare_task_witness :
    (create_soulcare_task init_store 7 "hi".toList none none 0).2.status
      = "in_progress" :=
  (C6_soulcare_task_amended init_store 7 "hi".toList none 0 (by decide)).1

/-! ### C3: the first chat message is never appended -/

/-- C3: evaluating the code at the scenario input. `create_task` leaves the
new task's `messages` list empty (no first ChatMessage with role "user" is
ever appended), so `process_message` hits the crash path instead of
producing the chat response the tests expect. -/
theorem C3_missing_first_message_bug :
    (create_task init_store 7 td_w 0).2.messages = [] ∧
    (process_message init_store 7 "Help me plan a trip".toList none [] 0).2
      = none :=
  ⟨rfl, rfl⟩

/-! ### Helper lemmas for the deletion cascade -/

theorem delete_one_task_no_id {ts : List Task} {task_id user_id : Nat} {t0 : Task}
    (hnd : (ts.map Task.id).Nodup)
    (hfind : ts.find? (fun t => t.id == task_id && t.user_id == user_id) = some t0) :
    ∀ u ∈ (delete_one_task ts
      (fun t => t.id == task_id && t.user_id == user_id)).1, u.id ≠ task_id := by
  induction ts with
  | nil => simp at hfind
  | cons t rest ih =>
      simp only [List.map_cons, List.nodup_cons] at hnd
      by_cases hp : (t.id == task_id && t.user_id == user_id) = true
      · have htid : t.id = task_id := by
          simp only [Bool.and_eq_true, beq_iff_eq] at hp
          exact hp.1
        intro u hu huid
        simp only [delete_one_task, if_pos hp] at hu
        apply hnd.1
        rw [htid, ← huid]
        exact List.mem_map_of_mem Task.id hu
      · rw [List.find?_cons_of_neg _ (by simpa using hp)] at hfind
        intro u hu
        simp only [delete_one_task, if_neg hp, List.mem_cons] at hu
        rcases hu with rfl | hu
        · intro htid
          have ht0 : t0 ∈ rest := List.mem_of_find?_eq_some hfind
          have hp0 := List.find?_some hfind
          have ht0id : t0.id = task_id := by
            simp only [Bool.and_eq_true, beq_iff_eq] at hp0
            exact hp0.1
          apply hnd.1
          rw [htid, ← ht0id]
          exact List.mem_map_of_mem Task.id ht0
        · exact ih hnd.2 hfind u hu

theorem delete_one_conversation_no_id {cs : List Conversation}
    {conversation_id user_id : Nat} {c0 : Conversation}
    (hnd : (cs.map Conversation.id).Nodup)
    (hfind : cs.find?
      (fun c => c.id == conversation_id && c.user_id == user_id) = some c0) :
    ∀ d ∈ (delete_one_conversation cs
        (fun c => c.id == conversation_id && c.user_id == user_id)).1,
      d.id ≠ conversation_id := by
  induction cs with
  | nil => simp at hfind
  | cons c rest ih =>
      simp only [List.map_cons, List.nodup_cons] at hnd
      by_cases hp : (c.id == conversation_id && c.user_id == user_id) = true
      · have hcid : c.id = conversation_id := by
          simp only [Bool.and_eq_true, beq_iff_eq] at hp
          exact hp.1
        intro d hd hdid
        simp only [delete_one_conversation, if_pos hp] at hd
        apply hnd.1
        rw [hcid, ← hdid]
        exact List.mem_map_of_mem Conversation.id hd
      · rw [List.find?_cons_of_neg _ (by simpa using hp)] at hfind
        intro d hd
        simp only [delete_one_conversation, if_neg hp, List.mem_cons] at hd
        rcases hd with rfl | hd
        · intro hdid
          have hc0 : c0 ∈ rest := List.mem_of_find?_eq_some hfind
          have hp0 := List.find?_some hfind
          have hc0id : c0.id = conversation_id := by
            simp only [Bool.and_eq_true, beq_iff_eq] at hp0
            exact hp0.1
          apply hnd.1
          rw [hdid, ← hc0id]
          exact List.mem_map_of_mem Conversation.id hc0
        · exact ih hnd.2 hfind d hd

theorem update_first_conversation_prop {cs : List Conversation} {cid : Nat}
    {f : Conversation → Conversation} {P : Conversation → Prop}
    (hnd : (cs.map Conversation.id).Nodup)
    (hP : ∀ c, P (f c)) :
    ∀ c ∈ (update_first_conversation cs cid f).1, c.id = cid → P c := by
  induction cs with
  | nil => intro c hc; simp [update_first_conversation] at hc
  | cons a rest ih =>
      simp only [List.map_cons, List.nodup_cons] at hnd
      by_cases hid : a.id = cid
      · intro c hc hcid
        simp only [update_first_conversation, beq_iff_eq, if_pos hid,
          List.mem_cons] at hc
        rcases hc with rfl | hc
        · exact hP a
        · exfalso
          apply hnd.1
          rw [hid, ← hcid]
          exact List.mem_map_of_mem Conversation.id hc
      · intro c hc hcid
        simp only [update_first_conversation, beq_iff_eq, if_neg hid,
          List.mem_cons] at hc
        rcases hc with rfl | hc
        · exact absurd hcid hid
        · exact ih hnd.2 c hc hcid

/-! ### C8: the deletion cascade -/

/-- C8: deleting a conversation deletes every child task and the
conversation itself (afterwards a lookup of any child task id or of the
conversation id returns none), and deleting a task removes its id from the
parent conversation's task list. -/
theorem C8_delete_cascade (s : Store) (cid uid tid now : Nat) (hwf : s.WF) :
    (∀ s', delete_conversation s cid uid = (s', true) →
      get_conversation_by_id s' cid = none ∧
      ∀ t ∈ s.tasks, t.conversation_id = cid → get_task_by_id s' t.id = none) ∧
    (∀ s' t, get_user_task s tid uid = some t →
      delete_task s tid uid now = (s', true) →
      get_task_by_id s' tid = none ∧
      ∀ c ∈ s'.conversations, c.id = t.conversation_id → tid ∉ c.task_ids) := by
  constructor
  · intro s' hdel
    rw [delete_conversation] at hdel
    cases hg : get_user_conversation s cid uid with
    | none => rw [hg] at hdel; simp at hdel
    | some c0 =>
        simp only [hg, delete_user_conversation, delete_conversation_tasks] at hdel
        have hs' := congrArg Prod.fst hdel
        dsimp only at hs'
        subst hs'
        constructor
        · rw [get_conversation_by_id, List.find?_eq_none]
          intro d hd
          simp only [beq_iff_eq]
          exact delete_one_conversation_no_id hwf.2 hg d hd
        · intro t ht hcid
          rw [get_task_by_id, List.find?_eq_none]
          intro u hu
          simp only [beq_iff_eq]
          intro huid
          have hu' := List.mem_filter.1 hu
          have : u = t := List.inj_on_of_nodup_map hwf.1 hu'.1 ht huid
          subst this
          rw [hcid] at hu'
          simpa using hu'.2
  · intro s' t hget hdel
    rw [delete_task] at hdel
    simp only [hget, delete_user_task, remove_task_from_conversation] at hdel
    have hs' := congrArg Prod.fst hdel
    dsimp only at hs'
    subst hs'
    constructor
    · rw [get_task_by_id, List.find?_eq_none]
      intro u hu
      simp only [beq_iff_eq]
      exact delete_one_task_no_id hwf.1 hget u hu
    · intro c hc hcid
      have hP : ∀ d : Conversation, tid ∉ d.task_ids.filter (fun x => x != tid) := by
        intro d hmem
        have := (List.mem_filter.1 hmem).2
        simp at this
      exact @update_first_conversation_prop _ _ _ (fun d => tid ∉ d.task_ids)
        hwf.2 (fun d => hP d) c hc hcid

/-- C8 witness: deleting conversation 20 removes its child task 21. -/
theorem C8_delete_cascade_witness :
    get_task_by_id (delete_conversation store_w2 20 7).1 21 = none :=
  ((C8_delete_cascade store_w2 20 7 21 99 (by decide)).1
      (delete_conversation store_w2 20 7).1 rfl).2 tk21 (by decide) rfl

end AgentTemplate
